import Mathlib

/-!
Shallow embedding of the Document-research-agent pipeline
(src/src/workflow.py, src/src/agents/research_agent.py,
src/src/agents/analysis_agent.py, src/src/models/company.py,
src/src/models/research_result.py, src/src/utils/config.py).

Modelling conventions:
* External collaborators (the FireCrawl search/scrape service and the
  OpenAI chat model) are opaque oracles passed as parameters.  A call
  that may raise is modelled as an `Except String` value, the error
  carrying the exception text.
* The generative collaborator invocation composed with `json.loads`
  is modelled as one oracle of type
  `String → String → Except String (Option Json)`:
  `.error e` means `llm.invoke` raised, `.ok none` means the returned
  content was not valid JSON (`json.JSONDecodeError`), and
  `.ok (some v)` means the content parsed as the JSON value `v`.
* Wall-clock readings (`time.time()`) are rationals passed in as the
  entry and exit instants of `run`.
* The analysis-agent operations return `String × Nat`, the `Nat`
  counting how many times `self.llm.invoke` was executed, so that
  "does not invoke the generative collaborator" is expressible.
* Pydantic validation of `Company(**data)` is modelled by
  `companyOfJson`; type coercions of pydantic lax mode beyond the
  exact JSON types are not modelled (the decoder accepts exactly the
  JSON types declared by the model fields).
-/

namespace DocAgent

/-- JSON values, as produced by `json.loads` on the generative
collaborator response content. -/
inductive Json where
  | null : Json
  | bool : Bool → Json
  | num : Int → Json
  | str : String → Json
  | arr : List Json → Json
  | obj : List (String × Json) → Json

/-- Data model for a company/developer tool
(src/src/models/company.py lines 5-19, pydantic `Company`). -/
structure Company where
  name : String
  website : Option String
  description : Option String
  pricing_model : Option String
  is_open_source : Bool
  tech_stack : List String
  language_support : List String
  api_available : Option Bool
  integration_capabilities : List String
  category : Option String
  github_url : Option String
  documentation_url : Option String
deriving DecidableEq, Repr

/-- The field defaults declared by the pydantic model in
src/src/models/company.py: every field except `name` has a default
(`None`, `False` or `[]`). -/
def Company.modelDefault (name : String) : Company :=
  { name := name
    website := none
    description := none
    pricing_model := none
    is_open_source := false
    tech_stack := []
    language_support := []
    api_available := none
    integration_capabilities := []
    category := none
    github_url := none
    documentation_url := none }

/-- Data model for research results
(src/src/models/research_result.py lines 6-13, pydantic
`ResearchResult`).  `search_time` is a rational standing for the
Python float. -/
structure ResearchResult where
  query : String
  companies : List Company
  analysis : Option String
  total_results : Nat
  search_time : Option ℚ
deriving DecidableEq, Repr

/-- Configuration settings (src/src/utils/config.py lines 6-46). -/
structure Config where
  openai_api_key : String
  firecrawl_api_key : String
  llm_model : String
  llm_temperature : ℚ
  max_tokens : Nat
  max_search_results : Nat
  max_scraping_concurrent : Nat
  scraping_timeout : Nat
  include_domains : List String
  log_level : String
  log_file : String
deriving DecidableEq, Repr

/-- `Config.validate_keys` (src/src/utils/config.py lines 64-74):
collects the names of required API keys whose configured value is
falsy (the empty string). -/
def Config.validate_keys (c : Config) : List String :=
  (if c.openai_api_key = ("") then [("OPENAI_API_KEY")] else [])
    ++ (if c.firecrawl_api_key = ("") then [("FIRECRAWL_API_KEY")] else [])

/-- The `extracted_data` map of one scrape attempt, restricted to the
extraction schema declared in src/src/tools/web_scraper.py lines
36-50.  `none` means the key is absent from the dict (so `dict.get`
returns its default). -/
structure Extracted where
  company_name : Option String
  description : Option String
  pricing_model : Option String
  is_open_source : Option Bool
  tech_stack : Option (List String)
  language_support : Option (List String)
  api_available : Option Bool
  integrations : Option (List String)
  github_url : Option String
  documentation_url : Option String
deriving DecidableEq, Repr

/-- One element of the list returned by
`WebScraperTool.search_and_scrape`: a per-URL attempt dict with a
success flag, the url, and the extracted data
(src/src/tools/web_scraper.py lines 55-77). -/
structure ScrapedItem where
  success : Bool
  url : String
  extracted : Extracted
deriving DecidableEq, Repr

/-- Python truthiness of `extracted.get(key)` for a string-valued
key: falsy iff absent (`None`) or the empty string. -/
def optStrFalsy : Option String → Bool
  | none => true
  | some s => s == ("")

/-- `ResearchAgent._process_scraped_data`
(src/src/agents/research_agent.py lines 49-73).  Drops the record when
the company_name entry of `extracted` is falsy; otherwise builds a `Company`
by direct rename, with `dict.get` defaults: text fields default to the
empty string, `is_open_source` to `False`, list fields to `[]`, and
`api_available` (fetched with no default) to `None`.  The
`try/except` wrapper has no failing path under this typed model. -/
def process_scraped_data (item : ScrapedItem) : Option Company :=
  if optStrFalsy item.extracted.company_name then none
  else some
    { name := item.extracted.company_name.getD ("")
      website := some item.url
      description := some (item.extracted.description.getD (""))
      pricing_model := some (item.extracted.pricing_model.getD (""))
      is_open_source := item.extracted.is_open_source.getD false
      tech_stack := item.extracted.tech_stack.getD []
      language_support := item.extracted.language_support.getD []
      api_available := item.extracted.api_available
      integration_capabilities := item.extracted.integrations.getD []
      category := none
      github_url := some (item.extracted.github_url.getD (""))
      documentation_url := some (item.extracted.documentation_url.getD ("")) }

/-- Lookup of a key in a JSON object (Python `dict` access). -/
def jLookup (fields : List (String × Json)) (k : String) : Option Json :=
  (fields.find? (fun p => p.1 == k)).map (fun p => p.2)

/-- Pydantic validation of an `Optional[str]` field with default
`None`: absent or `null` gives `None`, a string gives itself,
anything else is a validation error. -/
def decodeOptStr : Option Json → Option (Option String)
  | none => some none
  | some Json.null => some none
  | some (Json.str s) => some (some s)
  | _ => none

/-- Pydantic validation of the `bool` field `is_open_source` with
default `False`. -/
def decodeBoolFalse : Option Json → Option Bool
  | none => some false
  | some (Json.bool b) => some b
  | _ => none

/-- Pydantic validation of the `Optional[bool]` field
`api_available` with default `None`. -/
def decodeOptBool : Option Json → Option (Option Bool)
  | none => some none
  | some Json.null => some none
  | some (Json.bool b) => some (some b)
  | _ => none

/-- Pydantic validation of a `List[str]` field with default `[]`. -/
def decodeListStr (j : Option Json) : Option (List String) :=
  match j with
  | none => some []
  | some (Json.arr xs) =>
      xs.mapM (fun x => match x with | Json.str s => some s | _ => none)
  | _ => none

/-- `Company(**company_data)`: pydantic construction of a `Company`
from one parsed JSON value.  `none` is a raised
`ValidationError`/`TypeError` (not a dict, missing or non-string
`name`, or a wrongly-typed field); extra keys are ignored, which is
the default pydantic behaviour. -/
def companyOfJson : Json → Option Company
  | Json.obj fs => do
      let name ← (match jLookup fs ("name") with
        | some (Json.str s) => some s
        | _ => none)
      let website ← decodeOptStr (jLookup fs ("website"))
      let description ← decodeOptStr (jLookup fs ("description"))
      let pricing ← decodeOptStr (jLookup fs ("pricing_model"))
      let ios ← decodeBoolFalse (jLookup fs ("is_open_source"))
      let ts ← decodeListStr (jLookup fs ("tech_stack"))
      let ls ← decodeListStr (jLookup fs ("language_support"))
      let api ← decodeOptBool (jLookup fs ("api_available"))
      let ic ← decodeListStr (jLookup fs ("integration_capabilities"))
      let cat ← decodeOptStr (jLookup fs ("category"))
      let gh ← decodeOptStr (jLookup fs ("github_url"))
      let du ← decodeOptStr (jLookup fs ("documentation_url"))
      pure
        { name := name
          website := website
          description := description
          pricing_model := pricing
          is_open_source := ios
          tech_stack := ts
          language_support := ls
          api_available := api
          integration_capabilities := ic
          category := cat
          github_url := gh
          documentation_url := du }
  | _ => none

/-- System message of the backfill generation request
(src/src/agents/research_agent.py line 103). -/
def genSystemMessage : String :=
  "You are a knowledgeable research assistant for developer tools and companies."

/-- The backfill generation prompt
(src/src/agents/research_agent.py lines 78-99), an f-string over the
requested `count` and the `query`. -/
def genPrompt (query : String) (count : Nat) : String :=
  ("\n        You are a research assistant specializing in developer tools and companies.\n\n        Generate ")
    ++ toString count
    ++ (" companies/tools related to: \"") ++ query ++ ("\"\n\n")
    ++ ("        For each company, provide:\n")
    ++ ("        - name: Company/tool name\n")
    ++ ("        - website: Official website URL\n")
    ++ ("        - description: Brief description (2-3 sentences)\n")
    ++ ("        - pricing_model: one of [free, paid, freemium, open_source]\n")
    ++ ("        - is_open_source: true/false\n")
    ++ ("        - tech_stack: list of technologies used (max 5)\n")
    ++ ("        - language_support: programming languages supported (max 5)\n")
    ++ ("        - api_available: true/false/null\n")
    ++ ("        - integration_capabilities: list of integrations (max 5)\n")
    ++ ("        - category: tool category\n")
    ++ ("        - github_url: GitHub repository URL if available\n")
    ++ ("        - documentation_url: Documentation URL if available\n\n")
    ++ ("        Return only valid, real companies/tools. Be accurate and factual.\n")
    ++ ("        Format as JSON array.\n        ")

/-- The list comprehension `[Company(**d) for d in companies_data]`
(src/src/agents/research_agent.py line 112): all-or-nothing — the
first record failing `Company(**d)` raises, discarding the whole
batch. -/
def decodeCompanyList : List Json → Option (List Company)
  | [] => some []
  | x :: xs => do
      let c ← companyOfJson x
      let cs ← decodeCompanyList xs
      pure (c :: cs)

/-- `ResearchAgent._generate_companies_with_llm`
(src/src/agents/research_agent.py lines 75-121).  The oracle `llm`
maps (system message, prompt) to the invocation outcome composed with
`json.loads` (see the module docstring).  A raised invocation, an
unparseable response, a parsed value that is not a list, and a list
containing one record that fails `Company(**data)` (the
`ValidationError` escapes the inner `try` and is caught by the outer
`except Exception`) all yield the empty list. -/
def generate_companies_with_llm (query : String) (count : Nat)
    (llm : String → String → Except String (Option Json)) : List Company :=
  match llm genSystemMessage (genPrompt query count) with
  | Except.error _ => []
  | Except.ok none => []
  | Except.ok (some (Json.arr items)) => (decodeCompanyList items).getD []
  | Except.ok (some _) => []

/-- The discovery half of `ResearchAgent.search_companies`
(src/src/agents/research_agent.py lines 33-40): keep the successful
scrape attempts and normalize each, dropping the ones
`_process_scraped_data` rejects. -/
def discoveredCompanies (scraped : List ScrapedItem) : List Company :=
  scraped.filterMap (fun r => if r.success then process_scraped_data r else none)

/-- `ResearchAgent.search_companies`
(src/src/agents/research_agent.py lines 25-47).  `scraped` is the
list returned by `web_scraper.search_and_scrape` (which catches its
own exceptions and returns `[]` on total search failure, so it is a
plain list here). -/
def search_companies (query : String) (max_results : Nat)
    (scraped : List ScrapedItem)
    (llm : String → String → Except String (Option Json)) : List Company :=
  let companies := discoveredCompanies scraped
  let companies :=
    if companies.length < max_results then
      companies ++ generate_companies_with_llm query (max_results - companies.length) llm
    else companies
  companies.take max_results

/-- Python `or` with a string default, for an optional string: the default is used
when the value is `None` or empty. -/
def pyOr (o : Option String) (d : String) : String :=
  match o with
  | none => d
  | some s => if s == ("") then d else s

/-- Python `str()` of an `Optional[str]` interpolated in an f-string:
`None` prints as the text `None`. -/
def pyStrOptStr : Option String → String
  | none => ("None")
  | some s => s

/-- Python `str()` of an `Optional[bool]` interpolated in an
f-string. -/
def pyStrOptBool : Option Bool → String
  | none => ("None")
  | some true => ("True")
  | some false => ("False")

/-- The per-company lines of
`AnalysisAgent._create_companies_summary`
(src/src/agents/analysis_agent.py lines 69-89), for a 1-based index
`i`. -/
def companySummaryLines (i : Nat) (c : Company) : List String :=
  [("\n") ++ toString i ++ (". **") ++ c.name ++ ("**"),
   ("   - Website: ") ++ pyOr c.website ("N/A"),
   ("   - Description: ") ++ pyOr c.description ("N/A"),
   ("   - Pricing: ") ++ pyOr c.pricing_model ("N/A"),
   ("   - Open Source: ") ++ (if c.is_open_source then ("Yes") else ("No"))]
  ++ (match c.tech_stack with
      | [] => []
      | ts => [("   - Tech Stack: ") ++ String.intercalate (", ") (ts.take 5)])
  ++ (match c.language_support with
      | [] => []
      | ls => [("   - Language Support: ") ++ String.intercalate (", ") (ls.take 5)])
  ++ (match c.api_available with
      | none => []
      | some b => [("   - API Available: ") ++ (if b then ("Yes") else ("No"))])
  ++ (match c.integration_capabilities with
      | [] => []
      | ic => [("   - Integrations: ") ++ String.intercalate (", ") (ic.take 5)])
  ++ (match c.category with
      | none => []
      | some cat => if cat == ("") then [] else [("   - Category: ") ++ cat])

/-- Helper for `enumerate(companies, 1)`. -/
def summaryLinesFrom : Nat → List Company → List String
  | _, [] => []
  | i, c :: rest => companySummaryLines i c ++ summaryLinesFrom (i + 1) rest

/-- `AnalysisAgent._create_companies_summary`
(src/src/agents/analysis_agent.py lines 64-91). -/
def create_companies_summary (companies : List Company) : String :=
  String.intercalate ("\n") (summaryLinesFrom 1 companies)

/-- System message of the analysis request
(src/src/agents/analysis_agent.py line 54). -/
def analysisSystemMessage : String :=
  "You are an expert technical analyst specializing in developer tools and technology recommendations."

/-- The analysis prompt (src/src/agents/analysis_agent.py lines
32-50). -/
def analysisPrompt (query : String) (companies_summary : String) : String :=
  ("\n        Based on the following research results for the query: \"")
    ++ query ++ ("\"\n\n        ") ++ companies_summary
    ++ ("\n\n        Please provide a comprehensive analysis including:\n\n")
    ++ ("        1. **Key Findings**: What are the main patterns and trends?\n")
    ++ ("        2. **Recommendations**: Which tools/companies would you recommend and why?\n")
    ++ ("        3. **Comparison**: How do these options compare in terms of:\n")
    ++ ("           - Pricing models\n")
    ++ ("           - Open source vs proprietary\n")
    ++ ("           - Technical capabilities\n")
    ++ ("           - Integration options\n")
    ++ ("        4. **Use Cases**: What scenarios would each option be best suited for?\n")
    ++ ("        5. **Considerations**: What factors should developers consider when choosing?\n\n")
    ++ ("        Keep the analysis practical and actionable for developers.\n        ")

/-- `AnalysisAgent.analyze_companies`
(src/src/agents/analysis_agent.py lines 22-62).  The `llm` oracle
maps (system message, prompt) to the `invoke` outcome, `.ok` carrying
`response.content`.  The second component counts how many times
`self.llm.invoke` ran. -/
def analyze_companies (companies : List Company) (query : String)
    (llm : String → String → Except String String) : String × Nat :=
  match companies with
  | [] => (("No companies found for the given query."), 0)
  | _ =>
    let companies_summary := create_companies_summary companies
    let prompt := analysisPrompt query companies_summary
    match llm analysisSystemMessage prompt with
    | Except.ok content => (content, 1)
    | Except.error _ => (("Analysis failed due to an error."), 1)

/-- The per-company projection built by
`AnalysisAgent.compare_companies`
(src/src/agents/analysis_agent.py lines 103-113). -/
structure ComparisonRow where
  name : String
  pricing_model : Option String
  is_open_source : Bool
  api_available : Option Bool
  tech_stack : List String
  language_support : List String
  integration_capabilities : List String
deriving DecidableEq, Repr

/-- Builds one comparison row from a company
(src/src/agents/analysis_agent.py lines 104-112). -/
def companyComparisonRow (c : Company) : ComparisonRow :=
  { name := c.name
    pricing_model := c.pricing_model
    is_open_source := c.is_open_source
    api_available := c.api_available
    tech_stack := c.tech_stack
    language_support := c.language_support
    integration_capabilities := c.integration_capabilities }

/-- The per-row lines of `AnalysisAgent._format_comparison_data`
(src/src/agents/analysis_agent.py lines 148-155). -/
def comparisonRowLines (d : ComparisonRow) : List String :=
  [("\n**") ++ d.name ++ (":**"),
   ("- Pricing: ") ++ pyStrOptStr d.pricing_model,
   ("- Open Source: ") ++ (if d.is_open_source then ("Yes") else ("No")),
   ("- API Available: ") ++ pyStrOptBool d.api_available,
   ("- Tech Stack: ")
     ++ (match d.tech_stack with
         | [] => ("N/A")
         | ts => String.intercalate (", ") (ts.take 3)),
   ("- Language Support: ")
     ++ (match d.language_support with
         | [] => ("N/A")
         | ls => String.intercalate (", ") (ls.take 3)),
   ("- Integrations: ")
     ++ (match d.integration_capabilities with
         | [] => ("N/A")
         | ic => String.intercalate (", ") (ic.take 3))]

/-- `AnalysisAgent._format_comparison_data`
(src/src/agents/analysis_agent.py lines 143-157). -/
def format_comparison_data (rows : List ComparisonRow) : String :=
  String.intercalate ("\n") (rows.flatMap comparisonRowLines)

/-- System message of the comparison request
(src/src/agents/analysis_agent.py line 133). -/
def comparisonSystemMessage : String :=
  "You are an expert technical analyst specializing in technology comparisons."

/-- The comparison prompt (src/src/agents/analysis_agent.py lines
116-129). -/
def comparisonPrompt (criteria : List String) (formatted : String) : String :=
  ("\n        Compare these companies/tools based on the following criteria: ")
    ++ String.intercalate (", ") criteria
    ++ ("\n\n        Companies to compare:\n        ") ++ formatted
    ++ ("\n\n        Provide a detailed comparison highlighting:\n")
    ++ ("        1. Strengths and weaknesses of each option\n")
    ++ ("        2. Best use cases for each\n")
    ++ ("        3. Key differentiators\n")
    ++ ("        4. Recommendations based on different scenarios\n\n")
    ++ ("        Format as a clear, structured comparison.\n        ")

/-- `AnalysisAgent.compare_companies`
(src/src/agents/analysis_agent.py lines 93-141).  `criteria = none`
models the Python default `criteria=None`, replaced inside by the
fixed four-element list.  The second component counts `llm.invoke`
executions. -/
def compare_companies (companies : List Company)
    (criteria : Option (List String))
    (llm : String → String → Except String String) : String × Nat :=
  match companies with
  | [] => (("No companies to compare."), 0)
  | _ =>
    let criteria := criteria.getD
      [("pricing_model"), ("is_open_source"), ("api_available"), ("tech_stack")]
    let comparison_data := companies.map companyComparisonRow
    let prompt := comparisonPrompt criteria (format_comparison_data comparison_data)
    match llm comparisonSystemMessage prompt with
    | Except.ok content => (content, 1)
    | Except.error _ => (("Comparison failed due to an error."), 1)

/-- System message of the recommendation request
(src/src/agents/analysis_agent.py line 187). -/
def recommendationSystemMessage : String :=
  "You are an expert technical consultant providing personalized technology recommendations."

/-- The requirements line of `generate_recommendations`
(src/src/agents/analysis_agent.py line 165): Python truthiness, so
`None` and the empty string both fall back to the fixed text. -/
def requirementsText (user_requirements : Option String) : String :=
  match user_requirements with
  | none => ("No specific requirements provided.")
  | some r =>
    if r == ("") then ("No specific requirements provided.")
    else ("User requirements: ") ++ r

/-- The recommendation prompt (src/src/agents/analysis_agent.py
lines 167-183). -/
def recommendationPrompt (reqText : String) (summary : String) : String :=
  ("\n        Based on the following companies and user requirements, provide specific recommendations:\n\n        ")
    ++ reqText
    ++ ("\n\n        Available options:\n        ") ++ summary
    ++ ("\n\n        Please provide:\n")
    ++ ("        1. Top 3 recommendations with reasoning\n")
    ++ ("        2. Pros and cons of each recommended option\n")
    ++ ("        3. Implementation considerations\n")
    ++ ("        4. Budget considerations\n")
    ++ ("        5. Scalability factors\n\n")
    ++ ("        Tailor recommendations to the user\x27s specific needs.\n        ")

/-- `AnalysisAgent.generate_recommendations`
(src/src/agents/analysis_agent.py lines 159-195).  The second
component counts `llm.invoke` executions. -/
def generate_recommendations (companies : List Company)
    (user_requirements : Option String)
    (llm : String → String → Except String String) : String × Nat :=
  match companies with
  | [] => (("No companies available for recommendations."), 0)
  | _ =>
    let prompt := recommendationPrompt (requirementsText user_requirements)
      (create_companies_summary companies)
    match llm recommendationSystemMessage prompt with
    | Except.ok content => (content, 1)
    | Except.error _ => (("Recommendations failed due to an error."), 1)

/-- The fixed no-results analysis text of `Workflow.run`
(src/src/workflow.py line 51). -/
def noResultsMessage : String :=
  "No companies or tools found for the given query. Please try a different search term."

/-- The body of `Workflow.run` (src/src/workflow.py lines 34-82)
over the outcome of the `search_companies` call.  `Except.error e`
is the case in which the callee raised with text `e`: the `except
Exception` handler turns it into the failure result.  `start` and
`finish` are the `time.time()` readings at entry and at the return
statement taken. -/
def runWith (query : String) (searchOutcome : Except String (List Company))
    (llmAnalyze : String → String → Except String String)
    (start finish : ℚ) : ResearchResult :=
  match searchOutcome with
  | Except.error e =>
    { query := query
      companies := []
      analysis := some (("Research failed due to an error: ") ++ e)
      total_results := 0
      search_time := some (finish - start) }
  | Except.ok [] =>
    { query := query
      companies := []
      analysis := some noResultsMessage
      total_results := 0
      search_time := some (finish - start) }
  | Except.ok companies =>
    { query := query
      companies := companies
      analysis := some (analyze_companies companies query llmAnalyze).1
      total_results := companies.length
      search_time := some (finish - start) }

/-- `Workflow.run` (src/src/workflow.py lines 34-82) composed with
the actual `ResearchAgent.search_companies`.  Under this embedding
`search_companies` is total — every collaborator failure is absorbed
below it (the scraper returns `[]` and both agents catch their own
exceptions) — so the call always reaches `runWith` as `.ok`; the
`.error` branch of `runWith` is the `except` handler of the source. -/
def run (query : String) (max_results : Nat)
    (scraped : List ScrapedItem)
    (llmGen : String → String → Except String (Option Json))
    (llmAnalyze : String → String → Except String String)
    (start finish : ℚ) : ResearchResult :=
  runWith query (Except.ok (search_companies query max_results scraped llmGen))
    llmAnalyze start finish

/-- The dict returned by `Workflow.health_check`
(src/src/workflow.py lines 123-160), with `components` as an
association list in insertion order. -/
structure HealthStatus where
  status : String
  components : List (String × String)
  timestamp : ℚ
deriving DecidableEq, Repr

/-- `Workflow.health_check` (src/src/workflow.py lines 123-160).
`openaiProbe` is the outcome of the trivial `llm.invoke` probe and
`firecrawlProbe` that of the `firecrawl_app` attribute access, each
wrapped in its own `try/except`; the config check runs last and
overwrites the status with `unhealthy` when keys are missing. -/
def health_check (cfg : Config)
    (openaiProbe : Except String Unit)
    (firecrawlProbe : Except String Unit)
    (now : ℚ) : HealthStatus :=
  let status0 := ("healthy")
  let openaiComp := match openaiProbe with
    | Except.ok _ => ("healthy")
    | Except.error e => ("unhealthy: ") ++ e
  let status1 := match openaiProbe with
    | Except.ok _ => status0
    | Except.error _ => ("degraded")
  let firecrawlComp := match firecrawlProbe with
    | Except.ok _ => ("healthy")
    | Except.error e => ("unhealthy: ") ++ e
  let status2 := match firecrawlProbe with
    | Except.ok _ => status1
    | Except.error _ => ("degraded")
  let missing := cfg.validate_keys
  let configComp :=
    if missing.isEmpty then ("healthy")
    else ("missing keys: ") ++ String.intercalate (", ") missing
  let statusF := if missing.isEmpty then status2 else ("unhealthy")
  { status := statusF
    components :=
      [(("openai"), openaiComp), (("firecrawl"), firecrawlComp), (("config"), configComp)]
    timestamp := now }

/-- The backfill contribution of `search_companies`
(src/src/agents/research_agent.py lines 43-45): the generated records
when the discovered count is below the cap, nothing otherwise. -/
def backfillCompanies (query : String) (max_results : Nat)
    (scraped : List ScrapedItem)
    (llm : String → String → Except String (Option Json)) : List Company :=
  if (discoveredCompanies scraped).length < max_results then
    generate_companies_with_llm query
      (max_results - (discoveredCompanies scraped).length) llm
  else []

/-- A generative collaborator whose invocation always raises. -/
def llmGenFail : String → String → Except String (Option Json) :=
  fun _ _ => Except.error ("connection error")

/-- A generative collaborator returning a JSON array with one record
whose `name` is the empty string. -/
def llmGenEmptyName : String → String → Except String (Option Json) :=
  fun _ _ => Except.ok (some (Json.arr [Json.obj [(("name"), Json.str (""))]]))

/-- A text collaborator that always answers. -/
def llmTextOk : String → String → Except String String :=
  fun _ _ => Except.ok ("analysis text")

/-- An extraction map carrying only a company name. -/
def extractedAcme : Extracted :=
  { company_name := some ("Acme")
    description := none
    pricing_model := none
    is_open_source := none
    tech_stack := none
    language_support := none
    api_available := none
    integrations := none
    github_url := none
    documentation_url := none }

/-- A successful scrape attempt carrying only a company name. -/
def itemAcme : ScrapedItem :=
  { success := true, url := ("https://acme.dev"), extracted := extractedAcme }

/-- The `Company` that `_process_scraped_data` builds from
`itemAcme`: note the optional text fields are the empty string, not
the `None` defaults of the pydantic model. -/
def companyAcme : Company :=
  { name := ("Acme")
    website := some ("https://acme.dev")
    description := some ("")
    pricing_model := some ("")
    is_open_source := false
    tech_stack := []
    language_support := []
    api_available := none
    integration_capabilities := []
    category := none
    github_url := some ("")
    documentation_url := some ("") }

/-- The default domain allowlist of src/src/utils/config.py lines
24-42. -/
def defaultIncludeDomains : List String :=
  [("github.com"), ("docs.mongodb.com"), ("www.postgresql.org"), ("redis.io"),
   ("cassandra.apache.org"), ("www.docker.com"), ("kubernetes.io"),
   ("aws.amazon.com"), ("cloud.google.com"), ("azure.microsoft.com"),
   ("www.elastic.co"), ("www.splunk.com"), ("grafana.com"), ("prometheus.io")]

/-- A configuration with both required credentials present. -/
def cfgGood : Config :=
  { openai_api_key := ("sk-test")
    firecrawl_api_key := ("fc-test")
    llm_model := ("gpt-4o-mini")
    llm_temperature := 1 / 10
    max_tokens := 2000
    max_search_results := 10
    max_scraping_concurrent := 5
    scraping_timeout := 30
    include_domains := defaultIncludeDomains
    log_level := ("INFO")
    log_file := ("research_agent.log") }

/-- A configuration with both required credentials missing (empty,
hence falsy). -/
def cfgBad : Config :=
  { cfgGood with openai_api_key := (""), firecrawl_api_key := ("") }

/-- C1: `Workflow.run` never raises to its caller (in this embedding
it is a total function), and on every failure path it returns a valid
`ResearchResult` with an empty companies list, `total_results = 0`,
a human-readable failure explanation in `analysis`, and the elapsed
`search_time`.  The first conjunct is the `except` handler path of
workflow.py (the callee raised with text `e`); the second is the
total-search-failure path of `run` itself, in which every
collaborator failure has been absorbed below and `search_companies`
came back empty. -/
theorem C1_run_failure_paths :
    (∀ (query e : String) (llmAnalyze : String → String → Except String String)
        (start finish : ℚ),
      runWith query (Except.error e) llmAnalyze start finish =
        { query := query
          companies := []
          analysis := some (("Research failed due to an error: ") ++ e)
          total_results := 0
          search_time := some (finish - start) })
    ∧ (∀ (query : String) (max_results : Nat) (scraped : List ScrapedItem)
          (llmGen : String → String → Except String (Option Json))
          (llmAnalyze : String → String → Except String String)
          (start finish : ℚ),
        search_companies query max_results scraped llmGen = [] →
        run query max_results scraped llmGen llmAnalyze start finish =
          { query := query
            companies := []
            analysis := some noResultsMessage
            total_results := 0
            search_time := some (finish - start) }) := by
  constructor
  · intro query e llmAnalyze start finish
    rfl
  · intro query max_results scraped llmGen llmAnalyze start finish h
    simp only [run, h]
    rfl

/-- C1 witness: with no scrape results and a raising generative
collaborator, `run` returns the empty no-results result. -/
theorem C1_run_failure_paths_witness :
    run ("q") 1 [] llmGenFail llmTextOk 0 2 =
      { query := ("q")
        companies := []
        analysis := some noResultsMessage
        total_results := 0
        search_time := some ((2 : ℚ) - 0) } :=
  C1_run_failure_paths.2 ("q") 1 [] llmGenFail llmTextOk 0 2 rfl

/-- C2: every `ResearchResult` produced by the body of `Workflow.run`
— the failure path, the no-results path and the success path alike,
i.e. `runWith` at any outcome of the search call, which covers every
output of `run` — has `total_results` equal to the length of its
companies list, and (assuming the two `time.time()` readings are
monotone) a present, non-negative `search_time`. -/
theorem C2_result_invariants (query : String)
    (searchOutcome : Except String (List Company))
    (llmAnalyze : String → String → Except String String)
    (start finish : ℚ) (h : start ≤ finish) :
    (runWith query searchOutcome llmAnalyze start finish).total_results =
      (runWith query searchOutcome llmAnalyze start finish).companies.length
    ∧ ∃ t : ℚ,
        (runWith query searchOutcome llmAnalyze start finish).search_time = some t
        ∧ 0 ≤ t := by
  have ht : (0 : ℚ) ≤ finish - start := by linarith
  cases searchOutcome with
  | error e => exact ⟨rfl, finish - start, rfl, ht⟩
  | ok companies =>
    cases companies with
    | nil => exact ⟨rfl, finish - start, rfl, ht⟩
    | cons c rest => exact ⟨rfl, finish - start, rfl, ht⟩

/-- C2 witness at the no-results path with readings 0 and 1. -/
theorem C2_result_invariants_witness :
    (0 : ℚ) ≤ 1
    ∧ ((runWith ("q") (Except.ok []) llmTextOk 0 1).total_results =
        (runWith ("q") (Except.ok []) llmTextOk 0 1).companies.length
      ∧ ∃ t : ℚ,
          (runWith ("q") (Except.ok []) llmTextOk 0 1).search_time = some t
          ∧ 0 ≤ t) :=
  ⟨by norm_num, C2_result_invariants ("q") (Except.ok []) llmTextOk 0 1 (by norm_num)⟩

/-- C3 counterexample: the claim "every Entity Record appearing in a
result has a non-empty name" is false.  The generative backfill
accepts a record whose `name` is the empty string (pydantic puts no
non-emptiness constraint on `name: str`), so `run` can return an
Aggregate Result containing an empty-named company. -/
theorem C3_counterexample :
    ("") ∈ (run ("q") 1 [] llmGenEmptyName llmTextOk 0 0).companies.map Company.name := by
  decide

/-- C3 amended: every discovery-sourced record has a non-empty name
(conjunct 1) and source records with an absent or blank name are
silently discarded by discovery normalization (conjunct 2); on the
backfill side a record lacking the `name` key is never converted
(conjunct 3) — but, as the counterexample shows, a backfill record
with an empty-string name is accepted, so the non-emptiness
guarantee holds only for discovery-sourced records. -/
theorem C3_discovery_name_nonempty :
    (∀ (item : ScrapedItem) (c : Company),
      process_scraped_data item = some c → c.name ≠ (""))
    ∧ (∀ item : ScrapedItem,
        optStrFalsy item.extracted.company_name = true →
        process_scraped_data item = none)
    ∧ (∀ fs : List (String × Json),
        jLookup fs ("name") = none → companyOfJson (Json.obj fs) = none) := by
  refine ⟨?_, ?_, ?_⟩
  · intro item c h
    unfold process_scraped_data at h
    cases hcn : item.extracted.company_name with
    | none => simp [optStrFalsy, hcn] at h
    | some s =>
      by_cases hs : s = ("")
      · subst hs
        simp [optStrFalsy, hcn] at h
      · have hfalse : optStrFalsy (some s) = false := by
          simp [optStrFalsy, hs]
        rw [hcn, hfalse] at h
        simp only [Bool.false_eq_true, if_false, Option.some.injEq] at h
        rw [← h]
        simpa [hcn] using hs
  · intro item h
    simp [process_scraped_data, h]
  · intro fs h
    simp only [companyOfJson, h]
    rfl

/-- C3 amended witness: normalizing `itemAcme` yields a record whose
name is non-empty. -/
theorem C3_discovery_name_nonempty_witness :
    process_scraped_data itemAcme = some companyAcme
    ∧ companyAcme.name ≠ ("") :=
  ⟨by decide, C3_discovery_name_nonempty.1 itemAcme companyAcme (by decide)⟩

/-- C4: `search_companies` returns at most `max_results` records, and
its output is exactly the discovery-sourced records followed by the
backfill-sourced records, truncated by `List.take` (which keeps a
prefix and never reorders). -/
theorem C4_cap_and_order (query : String) (max_results : Nat)
    (scraped : List ScrapedItem)
    (llm : String → String → Except String (Option Json)) :
    (search_companies query max_results scraped llm).length ≤ max_results
    ∧ search_companies query max_results scraped llm =
        (discoveredCompanies scraped
          ++ backfillCompanies query max_results scraped llm).take max_results := by
  constructor
  · unfold search_companies
    by_cases h : (discoveredCompanies scraped).length < max_results <;>
      simp [h, List.length_take]
  · unfold search_companies backfillCompanies
    by_cases h : (discoveredCompanies scraped).length < max_results <;>
      simp [h]

/-- C5: the generative backfill either decodes the collaborator
response as a JSON array of schema-conforming records and returns
exactly those records, or returns the empty list — a raised
invocation, unparseable content, a non-list JSON value, and a list
with a record failing validation all yield `[]`, never an exception
(conjunct 1).  For the caller, zero backfill records is a normal
outcome: `search_companies` then simply returns the truncated
discovery list (conjunct 2). -/
theorem C5_backfill_graceful :
    (∀ (query : String) (count : Nat)
        (llm : String → String → Except String (Option Json)),
      generate_companies_with_llm query count llm = []
      ∨ ∃ (items : List Json) (cs : List Company),
          llm genSystemMessage (genPrompt query count) =
            Except.ok (some (Json.arr items))
          ∧ decodeCompanyList items = some cs
          ∧ generate_companies_with_llm query count llm = cs)
    ∧ (∀ (query : String) (max_results : Nat) (scraped : List ScrapedItem)
          (llm : String → String → Except String (Option Json)),
        generate_companies_with_llm query
            (max_results - (discoveredCompanies scraped).length) llm = [] →
        search_companies query max_results scraped llm =
          (discoveredCompanies scraped).take max_results) := by
  constructor
  · intro query count llm
    unfold generate_companies_with_llm
    cases hr : llm genSystemMessage (genPrompt query count) with
    | error e => exact Or.inl rfl
    | ok o =>
      cases o with
      | none => exact Or.inl rfl
      | some v =>
        cases v with
        | arr items =>
          cases hm : decodeCompanyList items with
          | none => simp [hm]
          | some cs => exact Or.inr ⟨items, cs, rfl, hm, by simp [hm]⟩
        | null => exact Or.inl rfl
        | bool b => exact Or.inl rfl
        | num n => exact Or.inl rfl
        | str s => exact Or.inl rfl
        | obj fs => exact Or.inl rfl
  · intro query max_results scraped llm h
    unfold search_companies
    by_cases hl : (discoveredCompanies scraped).length < max_results <;>
      simp [hl, h]

/-- C5 witness: a raising collaborator yields zero backfill records
and the caller returns the (empty) truncated discovery list. -/
theorem C5_backfill_graceful_witness :
    generate_companies_with_llm ("q") 1 llmGenFail = []
    ∧ search_companies ("q") 1 [] llmGenFail = (discoveredCompanies []).take 1 :=
  ⟨rfl, C5_backfill_graceful.2 ("q") 1 [] llmGenFail rfl⟩

/-- C6 counterexample: the claim "every field absent from the
extraction map maps to the default that the data model declares
for the Entity Record" is false for the optional text fields.  `itemAcme` has no
`description` in its extraction map, yet the description of the
normalized record is `some ""` (the `dict.get` default of
`_process_scraped_data`), not the pydantic model default `None`. -/
theorem C6_counterexample :
    (process_scraped_data itemAcme).map Company.description
      ≠ some (Company.modelDefault (("Acme"))).description := by
  decide

/-- C6 amended: discovery normalization maps each extracted field by
direct rename; an absent `is_open_source` becomes the model default
`false`, an absent `api_available` stays the unknown value `none`
(the field is passed through unchanged), absent list fields become
the model default `[]`, and `category` (never mapped) keeps the
model default `none` — but absent optional text fields become the
empty string rather than the `None` default of the model, and
`website` is taken from the url of the attempt, not from the
extraction map. -/
theorem C6_absent_field_defaults (url : String) (e : Extracted) (n : String)
    (hn : e.company_name = some n) (hne : n ≠ ("")) :
    process_scraped_data { success := true, url := url, extracted := e } = some
      { name := n
        website := some url
        description := some (e.description.getD (""))
        pricing_model := some (e.pricing_model.getD (""))
        is_open_source := e.is_open_source.getD (Company.modelDefault n).is_open_source
        tech_stack := e.tech_stack.getD (Company.modelDefault n).tech_stack
        language_support := e.language_support.getD (Company.modelDefault n).language_support
        api_available := e.api_available
        integration_capabilities := e.integrations.getD (Company.modelDefault n).integration_capabilities
        category := (Company.modelDefault n).category
        github_url := some (e.github_url.getD (""))
        documentation_url := some (e.documentation_url.getD ("")) } := by
  unfold process_scraped_data
  simp [optStrFalsy, hn, hne, Company.modelDefault]

/-- C6 amended witness: at `itemAcme` (all optional fields absent)
the theorem evaluates to `companyAcme`. -/
theorem C6_absent_field_defaults_witness :
    extractedAcme.company_name = some ("Acme")
    ∧ (("Acme") : String) ≠ ("")
    ∧ process_scraped_data itemAcme = some companyAcme :=
  ⟨rfl, by decide,
    C6_absent_field_defaults ("https://acme.dev") extractedAcme ("Acme") rfl (by decide)⟩

/-- C7: in `Workflow.health_check`, missing required credentials
force the overall status to `unhealthy` regardless of the outcome of
the two collaborator probes (the config check runs last and
overwrites), and with all credentials present a failing generative
collaborator probe yields status `degraded`. -/
theorem C7_health_status :
    (∀ (cfg : Config) (op fp : Except String Unit) (now : ℚ),
      cfg.validate_keys ≠ [] →
      (health_check cfg op fp now).status = ("unhealthy"))
    ∧ (∀ (cfg : Config) (e : String) (fp : Except String Unit) (now : ℚ),
        cfg.validate_keys = [] →
        (health_check cfg (Except.error e) fp now).status = ("degraded")) := by
  constructor
  · intro cfg op fp now h
    simp [health_check, List.isEmpty_iff, h]
  · intro cfg e fp now h
    cases fp <;> simp [health_check, List.isEmpty_iff, h]

/-- C7 witness: the blank-credential config is `unhealthy` even with
both probes succeeding; the good config with a failing generative
probe is `degraded`. -/
theorem C7_health_status_witness :
    (cfgBad.validate_keys ≠ []
      ∧ (health_check cfgBad (Except.ok ()) (Except.ok ()) 0).status = ("unhealthy"))
    ∧ (cfgGood.validate_keys = []
      ∧ (health_check cfgGood (Except.error ("probe failed")) (Except.ok ()) 0).status
          = ("degraded")) :=
  ⟨⟨by decide, C7_health_status.1 cfgBad (Except.ok ()) (Except.ok ()) 0 (by decide)⟩,
   ⟨by decide, C7_health_status.2 cfgGood ("probe failed") (Except.ok ()) 0 (by decide)⟩⟩

/-- C8: `compare_companies` with `criteria = none` (the Python
default `criteria=None`) behaves identically — same invocation of
the generative collaborator, same output text — to passing the
explicit default criteria list. -/
theorem C8_compare_default_criteria (companies : List Company)
    (llm : String → String → Except String String) :
    compare_companies companies none llm =
      compare_companies companies
        (some [("pricing_model"), ("is_open_source"), ("api_available"), ("tech_stack")])
        llm := by
  cases companies <;> rfl

/-- C9: `analyze_companies` on an empty record list returns the fixed
no-results message and performs zero invocations of the generative
collaborator (the second component counts `llm.invoke` executions),
for every query and every collaborator behaviour. -/
theorem C9_analyze_empty (query : String)
    (llm : String → String → Except String String) :
    analyze_companies [] query llm = (("No companies found for the given query."), 0) :=
  rfl

/-- C10: `compare_companies` and `generate_recommendations` on an
empty record list return their fixed messages with zero invocations
of the generative collaborator, for every criteria argument, every
requirements argument and every collaborator behaviour. -/
theorem C10_compare_recommend_empty (criteria : Option (List String))
    (user_requirements : Option String)
    (llm llm2 : String → String → Except String String) :
    compare_companies [] criteria llm = (("No companies to compare."), 0)
    ∧ generate_recommendations [] user_requirements llm2 =
        (("No companies available for recommendations."), 0) :=
  ⟨rfl, rfl⟩

end DocAgent



